import Mathlib

/-!
Verification of the Audio-Notes transcription pipeline.

Shallow embedding of the core of the repository:
  * `src/services/speech_to_text.py` (`SpeechToTextService`): format conversion,
    duration probing, the 55-second transport decision, synchronous and
    long-running (staged) recognition, temp-file and GCS-blob cleanup;
  * `src/services/summarizer.py` (`SummarizerService`): `summarize` and
    `generate_title`;
  * `src/services/audio_player.py` (`AudioPlayer.get_duration`);
  * `src/storage/note_storage.py` (`NoteStorage.save_note`) and
    `src/models/note.py` (`Note`).

External effects (ffmpeg/ffprobe subprocesses, file reads, GCS upload and
deletion, recognition backends, `os.remove`) are modelled by an environment
record fixing the outcome of each effect; the embedded functions return the
Python-level result (`Except` distinguishes a value returned from an
exception escaping to the caller) together with the observable effect trace
(commands issued, blob deletions performed, file existence).
-/

namespace AudioNotes

/-- A Python exception value: either a generic `Exception(msg)` (including the
exceptions the services raise themselves and backend/OS errors, identified by
their message) or an `UnboundLocalError` for reading a local variable that was
never assigned. -/
inductive PyExn where
  | exn : String → PyExn
  | unboundLocal : String → PyExn
deriving DecidableEq, Repr

instance exceptDecEq {ε α : Type} [DecidableEq ε] [DecidableEq α] : DecidableEq (Except ε α) :=
  fun a b =>
    match a, b with
    | Except.ok x, Except.ok y =>
      if h : x = y then isTrue (by rw [h]) else isFalse (by intro he; cases he; exact h rfl)
    | Except.error x, Except.error y =>
      if h : x = y then isTrue (by rw [h]) else isFalse (by intro he; cases he; exact h rfl)
    | Except.ok _, Except.error _ => isFalse (by intro he; cases he)
    | Except.error _, Except.ok _ => isFalse (by intro he; cases he)

/-- Python `str(e)`. -/
def pyStr : PyExn → String
  | PyExn.exn m => m
  | PyExn.unboundLocal n => "local variable " ++ n ++ " referenced before assignment"

/-- `listStartsWith pat l` : `pat` is an initial run of `l` (code-point wise). -/
def listStartsWith : List Char → List Char → Bool
  | [], _ => true
  | _ :: _, [] => false
  | a :: as, b :: bs => a == b && listStartsWith as bs

/-- Python `s.startswith(pre)`. -/
def pyStartsWith (s pre : String) : Bool := listStartsWith pre.data s.data

/-- Python `s.endswith(suf)`. -/
def strEndsWith (s suf : String) : Bool := listStartsWith suf.data.reverse s.data.reverse

/-- Characters of the basename: everything after the last `/` (POSIX
`os.path`, `altsep` is `None`). -/
def afterLastSlash (l : List Char) : List Char :=
  (l.reverse.takeWhile (fun c => c ≠ '/')).reverse

/-- Index of the last `.` in the list, if any. -/
def lastDotPos : List Char → Option Nat
  | [] => none
  | c :: rest =>
    match lastDotPos rest with
    | some k => some (k + 1)
    | none => if c = '.' then some 0 else none

/-- Python `os.path.splitext(path)[1]`: the extension (with its dot) of the
basename; a run of leading dots does not start an extension. -/
def fileExt (path : String) : String :=
  let b := afterLastSlash path.data
  match lastDotPos b with
  | none => ""
  | some k => if (b.take k).all (fun c => c = '.') then "" else String.mk (b.drop k)

/-- Python `path.rsplit(".", 1)[0]`: everything before the last dot of the
whole path (the whole path when there is no dot). -/
def rsplitDotHead (path : String) : String :=
  match lastDotPos path.data with
  | none => path
  | some k => String.mk (path.data.take k)

/-- Python `s.lower()` (the code applies it to a file extension). -/
def toLowerStr (s : String) : String := String.mk (s.data.map Char.toLower)

/-- The double-quote character. -/
def dquote : Char := Char.ofNat 34

/-- The single-quote character. -/
def squote : Char := Char.ofNat 39

/-- Python `s.replace(c, "")` for a one-character pattern: drop every
occurrence of `c`. -/
def removeChar (c : Char) (s : String) : String :=
  String.mk (s.data.filter (fun x => x ≠ c))

/-- Python `s.strip()`: drop leading and trailing whitespace. -/
def stripStr (s : String) : String :=
  String.mk (((s.data.dropWhile Char.isWhitespace).reverse.dropWhile Char.isWhitespace).reverse)

/-- Python `s[:n]` (first `n` code points). -/
def strTake (s : String) (n : Nat) : String := String.mk (s.data.take n)

/-- The fixed no-speech sentinel returned by both recognition paths. -/
def noSpeechSentinel : String := "No speech detected in audio."

/-! ## Summarizer (`src/services/summarizer.py`) -/

/-- `SummarizerService.summarize`. The generative backend is abstracted as the
outcome of `self.model.generate_content(prompt)`: `.ok resp` is a response
with text `resp`, `.error msg` a raised exception with message `msg`. The
second component counts backend invocations. -/
def summarize (backend : Except String String) (transcription : String) : String × Nat :=
  if transcription = "" ∨ pyStartsWith transcription "Error" = true ∨
      transcription = noSpeechSentinel then
    ("No summary available.", 0)
  else
    match backend with
    | Except.ok resp => (resp, 1)
    | Except.error msg => ("Error generating summary: " ++ msg, 1)

/-- Post-processing of a title response:
`response.text.strip().replace(chr(34), "").replace(chr(39), "")`, then
`title[:50] if len(title) > 50 else title`. -/
def titleFromResp (resp : String) : String :=
  let title := removeChar squote (removeChar dquote (stripStr resp))
  if title.length > 50 then strTake title 50 else title

/-- `SummarizerService.generate_title`. The prompt only embeds the first 500
characters of the transcription; since the backend outcome is part of the
environment, the prompt itself is not observable here. -/
def generateTitle (backend : Except String String) (transcription : String) : String :=
  if transcription = "" ∨ pyStartsWith transcription "Error" = true then "Untitled Note"
  else
    match backend with
    | Except.ok resp => titleFromResp resp
    | Except.error _ => "Untitled Note"

/-! ## Note model and storage (`src/models/note.py`, `src/storage/note_storage.py`) -/

/-- `models.note.Note`: a persisted audio note record. -/
structure Note where
  id : String
  title : String
  audio_path : String
  transcription : String
  summary : String
  created_at : String
  duration : ℚ
deriving DecidableEq, Repr

/-- `NoteStorage.save_note` acting on the decoded note list: replace the first
record with a matching id wholesale, else append. -/
def saveNote : List Note → Note → List Note
  | [], note => [note]
  | existing :: rest, note =>
    if existing.id = note.id then note :: rest
    else existing :: saveNote rest note

/-! ## Recognition results -/

/-- One element of `response.results`: its ranked `alternatives`, each reduced
to its `transcript` string. -/
structure RecResult where
  alternatives : List String
deriving DecidableEq, Repr

/-- `[result.alternatives[0].transcript for result in response.results]`;
an empty `alternatives` list makes the subscript raise `IndexError`. -/
def topAlternatives : List RecResult → Except PyExn (List String)
  | [] => Except.ok []
  | r :: rest =>
    match r.alternatives with
    | [] => Except.error (PyExn.exn "list index out of range")
    | t :: _ =>
      match topAlternatives rest with
      | Except.ok ts => Except.ok (t :: ts)
      | Except.error e => Except.error e

/-- `transcription = " ".join(...)` followed by
`transcription if transcription else "No speech detected in audio."`. -/
def joinOrSentinel (tops : List String) : String :=
  let t := String.intercalate " " tops
  if t = "" then noSpeechSentinel else t

/-- Result assembly for a whole backend response. -/
def assembleTranscription (results : List RecResult) : Except PyExn String :=
  match topAlternatives results with
  | Except.ok tops => Except.ok (joinOrSentinel tops)
  | Except.error e => Except.error e

/-! ## Duration probers -/

/-- `SpeechToTextService._get_audio_duration`: run ffprobe and parse its
plain-text duration output; `probe` is `some d` when the subprocess and the
float parse succeed, `none` for any failure (the catch-all returns `0.0`). -/
def sttGetAudioDuration (probe : Option ℚ) : ℚ :=
  match probe with
  | some d => d
  | none => 0

/-- `AudioPlayer.get_duration`: try mutagen metadata first (`.error ()` = the
metadata read raised, `.ok none` = no usable `info.length`), then fall back to
ffprobe JSON output, returning `0.0` on total failure. -/
def audioPlayerGetDuration (mutagenLen : Except Unit (Option ℚ)) (ffprobeJson : Option ℚ) : ℚ :=
  match mutagenLen with
  | Except.error _ => 0
  | Except.ok (some len) => len
  | Except.ok none =>
    match ffprobeJson with
    | some d => d
    | none => 0

/-- Modelled from the spec: the duration prober that claim C8 describes as the
one "used for routing" — embedded-metadata first, external probe as fallback,
`0.0` on total failure. Stated only to be compared with the probers embedded
from the source (`sttGetAudioDuration`, `audioPlayerGetDuration`). -/
def routingProberPerClaim (metadata ffprobe : Option ℚ) : ℚ :=
  match metadata with
  | some d => d
  | none =>
    match ffprobe with
    | some d => d
    | none => 0

/-! ## Format conversion (`SpeechToTextService._convert_to_wav`) -/

/-- Observable outcome of `_convert_to_wav`: returned path or raised
exception, subprocess commands issued, files newly created. -/
structure ConvOut where
  result : Except PyExn String
  cmds : List (List String)
  createdFiles : List String
deriving DecidableEq, Repr

/-- Derived output path: `audio_path.rsplit(".", 1)[0] + "_converted.wav"`. -/
def wavConvertedPath (path : String) : String := rsplitDotHead path ++ "_converted.wav"

/-- The exact ffmpeg argument vector built by `_convert_to_wav`. -/
def ffmpegCmd (path : String) : List String :=
  ["ffmpeg", "-i", path, "-ar", "16000", "-ac", "1", "-y", wavConvertedPath path]

/-- `SpeechToTextService._convert_to_wav`. `ffmpeg` is the subprocess outcome:
`.ok ()` a zero exit status, `.error stderr` a `CalledProcessError` whose
decoded stderr is `stderr`. -/
def convertToWav (ffmpeg : Except String Unit) (path : String) : ConvOut :=
  if toLowerStr (fileExt path) = ".wav" then ⟨Except.ok path, [], []⟩
  else
    match ffmpeg with
    | Except.ok _ =>
      ⟨Except.ok (wavConvertedPath path), [ffmpegCmd path], [wavConvertedPath path]⟩
    | Except.error stderr =>
      ⟨Except.error (PyExn.exn ("Failed to convert audio: " ++ stderr)), [ffmpegCmd path], []⟩

/-! ## GCS deletion (`SpeechToTextService._delete_from_gcs`) -/

/-- Outcome of a raw `blob.delete()` call. -/
def blobDeleteAttempt (fails : Bool) : Except PyExn Unit :=
  if fails then Except.error (PyExn.exn "blob delete failed") else Except.ok ()

/-- `_delete_from_gcs(blob)`: when a blob is present, invoke `blob.delete()`
and swallow any exception; returns the Python-level outcome together with the
number of `blob.delete()` invocations performed. -/
def deleteFromGcs (fails blobPresent : Bool) : Except PyExn Unit × Nat :=
  if blobPresent then
    match blobDeleteAttempt fails with
    | Except.ok _ => (Except.ok (), 1)
    | Except.error _ => (Except.ok (), 1)
  else (Except.ok (), 0)

/-! ## The transcription pipeline (`transcribe_audio`, `_transcribe_long_audio`) -/

/-- Environment fixing every external effect of one pipeline invocation. -/
structure Env where
  /-- outcome of the ffmpeg conversion subprocess (stderr on non-zero exit) -/
  ffmpeg : Except String Unit
  /-- ffprobe duration: parsed seconds, or `none` for any probing failure -/
  probe : Option ℚ
  /-- whether the input file itself exists on disk -/
  inputExists : Bool
  /-- outcome of `open(wav_path, "rb").read()` -/
  readBytes : Except String Unit
  /-- outcome of `client.recognize(...)` -/
  syncRecognize : Except String (List RecResult)
  /-- outcome of `_upload_to_gcs` (bucket setup + upload) -/
  upload : Except String Unit
  /-- outcome of `long_running_recognize` + `operation.result(timeout=300)`;
  `.error` covers submit failures and the 300 s wait timeout -/
  longRecognize : Except String (List RecResult)
  /-- whether `blob.delete()` raises -/
  blobDeleteFails : Bool
  /-- whether `os.remove` on the converted file raises -/
  removeRaises : Bool
  /-- message of the `OSError` raised by a failing `os.remove` -/
  removeMsg : String

/-- Observable outcome of `_transcribe_long_audio`. -/
structure LongOut where
  result : Except PyExn String
  blobDeleteCalls : Nat
  uploaded : Bool
  fileExists : Bool
deriving DecidableEq, Repr

/-- An exit through the `except` block of `_transcribe_long_audio`:
`_delete_from_gcs` already accounted for by `deletes`, then the conditional
`os.remove(audio_path)`; a raising remove escapes to the caller. -/
def longExit (env : Env) (endsConv exists0 : Bool) (deletes : Nat) (uploaded : Bool)
    (retMsg : String) : LongOut :=
  if endsConv && exists0 then
    if env.removeRaises then ⟨Except.error (PyExn.exn env.removeMsg), deletes, uploaded, exists0⟩
    else ⟨Except.ok retMsg, deletes, uploaded, false⟩
  else ⟨Except.ok retMsg, deletes, uploaded, exists0⟩

/-- `SpeechToTextService._transcribe_long_audio` on file `audioPath`
(existing on disk iff `exists0`). -/
def transcribeLongAudio (env : Env) (audioPath : String) (exists0 : Bool) : LongOut :=
  let endsConv := strEndsWith audioPath "_converted.wav"
  match env.upload with
  | Except.error msg =>
    longExit env endsConv exists0 (deleteFromGcs env.blobDeleteFails false).2 false
      ("Error during transcription: " ++ msg)
  | Except.ok _ =>
    match env.longRecognize with
    | Except.error msg =>
      longExit env endsConv exists0 (deleteFromGcs env.blobDeleteFails true).2 true
        ("Error during transcription: " ++ msg)
    | Except.ok results =>
      match topAlternatives results with
      | Except.error e =>
        longExit env endsConv exists0 (deleteFromGcs env.blobDeleteFails true).2 true
          ("Error during transcription: " ++ pyStr e)
      | Except.ok tops =>
        if endsConv && exists0 then
          if env.removeRaises then
            ⟨Except.error (PyExn.exn env.removeMsg),
              (deleteFromGcs env.blobDeleteFails true).2 + (deleteFromGcs env.blobDeleteFails true).2,
              true, exists0⟩
          else
            ⟨Except.ok (joinOrSentinel tops), (deleteFromGcs env.blobDeleteFails true).2, true, false⟩
        else
          ⟨Except.ok (joinOrSentinel tops), (deleteFromGcs env.blobDeleteFails true).2, true, exists0⟩

/-- Observable outcome of one `transcribe_audio` invocation. -/
structure PipeOut where
  result : Except PyExn String
  usedLongPath : Bool
  uploaded : Bool
  blobDeleteCalls : Nat
  convertedCreated : Bool
  wavPath : String
  wavExists : Bool
deriving DecidableEq, Repr

/-- The `except Exception` block of `transcribe_audio` with `wav_path` bound:
conditionally remove the converted file (a raising remove escapes), then
return the error sentinel string. -/
def outerHandle (env : Env) (e : PyExn) (path wavPath : String) (exists0 : Bool) :
    Except PyExn String × Bool :=
  if wavPath = path then (Except.ok ("Error during transcription: " ++ pyStr e), exists0)
  else if exists0 then
    if env.removeRaises then (Except.error (PyExn.exn env.removeMsg), exists0)
    else (Except.ok ("Error during transcription: " ++ pyStr e), false)
  else (Except.ok ("Error during transcription: " ++ pyStr e), exists0)

/-- `transcribe_audio` after the conversion step bound `wav_path`:
duration probe, the `duration > 55` transport decision, then the synchronous
recognition flow or delegation to `_transcribe_long_audio`, with the
`except Exception` handler around everything. -/
def afterConvert (env : Env) (path wavPath lang : String) (created exists0 : Bool) : PipeOut :=
  if 55 < sttGetAudioDuration env.probe then
    match (transcribeLongAudio env wavPath exists0).result with
    | Except.ok s =>
      ⟨Except.ok s, true, (transcribeLongAudio env wavPath exists0).uploaded,
        (transcribeLongAudio env wavPath exists0).blobDeleteCalls, created, wavPath,
        (transcribeLongAudio env wavPath exists0).fileExists⟩
    | Except.error e =>
      ⟨(outerHandle env e path wavPath (transcribeLongAudio env wavPath exists0).fileExists).1,
        true, (transcribeLongAudio env wavPath exists0).uploaded,
        (transcribeLongAudio env wavPath exists0).blobDeleteCalls, created, wavPath,
        (outerHandle env e path wavPath (transcribeLongAudio env wavPath exists0).fileExists).2⟩
  else
    match env.readBytes with
    | Except.error msg =>
      ⟨(outerHandle env (PyExn.exn msg) path wavPath exists0).1, false, false, 0, created,
        wavPath, (outerHandle env (PyExn.exn msg) path wavPath exists0).2⟩
    | Except.ok _ =>
      match env.syncRecognize with
      | Except.error msg =>
        ⟨(outerHandle env (PyExn.exn msg) path wavPath exists0).1, false, false, 0, created,
          wavPath, (outerHandle env (PyExn.exn msg) path wavPath exists0).2⟩
      | Except.ok results =>
        match topAlternatives results with
        | Except.error e =>
          ⟨(outerHandle env e path wavPath exists0).1, false, false, 0, created, wavPath,
            (outerHandle env e path wavPath exists0).2⟩
        | Except.ok tops =>
          if wavPath = path then
            ⟨Except.ok (joinOrSentinel tops), false, false, 0, created, wavPath, exists0⟩
          else if exists0 then
            if env.removeRaises then
              ⟨Except.error (PyExn.exn env.removeMsg), false, false, 0, created, wavPath, exists0⟩
            else
              ⟨Except.ok (joinOrSentinel tops), false, false, 0, created, wavPath, false⟩
          else
            ⟨Except.ok (joinOrSentinel tops), false, false, 0, created, wavPath, exists0⟩

/-- `SpeechToTextService.transcribe_audio`. When the conversion step raises,
the `except` handler evaluates `wav_path != audio_path` with `wav_path` never
assigned, so an `UnboundLocalError` escapes to the caller. -/
def transcribeAudio (env : Env) (path lang : String) : PipeOut :=
  match convertToWav env.ffmpeg path with
  | ⟨Except.error _, _, _⟩ =>
    ⟨Except.error (PyExn.unboundLocal "wav_path"), false, false, 0, false, path, env.inputExists⟩
  | ⟨Except.ok wavPath, _, createdFiles⟩ =>
    match createdFiles with
    | [] => afterConvert env path wavPath lang false env.inputExists
    | _ :: _ => afterConvert env path wavPath lang true true

/-- `SpeechToTextService.transcribe_audio_long` (deprecated entry point):
delegates to `transcribe_audio`. -/
def transcribeAudioLong (env : Env) (path lang : String) : PipeOut :=
  transcribeAudio env path lang

/-- The transport decision of `transcribe_audio`, line 120:
`if duration > 55: return self._transcribe_long_audio(...)`. -/
inductive Transport where
  | inline : Transport
  | staged : Transport
deriving DecidableEq, Repr

/-- The transport selector as a function of the probed duration. -/
def selectTransport (d : ℚ) : Transport :=
  if 55 < d then Transport.staged else Transport.inline

/-! ## Concrete environments used by closed theorems -/

/-- A fully healthy environment with a corrupt non-wav input: ffmpeg exits
non-zero, everything else would succeed. -/
def c1Env : Env :=
  ⟨Except.error "a.mp3: Invalid data found when processing input", none, true, Except.ok (),
    Except.ok [], Except.ok (), Except.ok [], false, true, "remove raised"⟩

/-- Long-audio environment where everything succeeds except that removing the
local converted file raises. -/
def c3Env : Env :=
  ⟨Except.ok (), some 90, true, Except.ok (), Except.ok [], Except.ok (),
    Except.ok [⟨["hello"]⟩], false, true, "Permission denied"⟩

/-- A fully healthy environment (90-second audio, staged path succeeds). -/
def okEnv : Env :=
  ⟨Except.ok (), some 90, true, Except.ok (), Except.ok [⟨["hi"]⟩], Except.ok (),
    Except.ok [⟨["hello"]⟩], false, false, "remove raised"⟩

/-- Environment in which the duration probe fails (parse error), everything
else healthy. -/
def probeFailEnv : Env :=
  ⟨Except.ok (), none, true, Except.ok (), Except.ok [⟨["hi"]⟩], Except.ok (),
    Except.ok [⟨["hello"]⟩], false, false, "remove raised"⟩

/-- A stored note. -/
def n0 : Note := ⟨"n1", "Old title", "a.wav", "text", "sum", "2024-01-01 10:00:00", 30⟩

/-- An update for the same note id carrying a different `created_at`. -/
def n1 : Note := ⟨"n1", "New title", "a.wav", "text2", "sum2", "2025-06-01 12:00:00", 30⟩

/-! ## Helper lemmas -/

theorem listStartsWith_self_append (l r : List Char) : listStartsWith l (l ++ r) = true := by
  induction l with
  | nil => rfl
  | cons a as ih => simp [listStartsWith, ih]

theorem pyStartsWith_append (pre u : String) : pyStartsWith (pre ++ u) pre = true := by
  unfold pyStartsWith
  rw [String.data_append]
  exact listStartsWith_self_append pre.data u.data

theorem strEndsWith_append (a b : String) : strEndsWith (a ++ b) b = true := by
  unfold strEndsWith
  rw [String.data_append, List.reverse_append]
  exact listStartsWith_self_append b.data.reverse a.data.reverse

theorem wavConvertedPath_endsConv (p : String) :
    strEndsWith (wavConvertedPath p) "_converted.wav" = true :=
  strEndsWith_append (rsplitDotHead p) "_converted.wav"

theorem lastDotPos_lt {l : List Char} {k : Nat} (h : lastDotPos l = some k) : k < l.length := by
  induction l generalizing k with
  | nil => simp [lastDotPos] at h
  | cons c rest ih =>
    unfold lastDotPos at h
    cases hr : lastDotPos rest with
    | some k2 =>
      rw [hr] at h
      injection h with h2
      subst h2
      have := ih hr
      simp only [List.length_cons]
      omega
    | none =>
      rw [hr] at h
      by_cases hc : c = '.'
      · rw [if_pos hc] at h
        injection h with h2
        subst h2
        simp
      · rw [if_neg hc] at h
        cases h

theorem lastDotPos_get {l : List Char} {k : Nat} (h : lastDotPos l = some k) :
    l[k]? = some '.' := by
  induction l generalizing k with
  | nil => simp [lastDotPos] at h
  | cons c rest ih =>
    unfold lastDotPos at h
    cases hr : lastDotPos rest with
    | some k2 =>
      rw [hr] at h
      injection h with h2
      subst h2
      simpa using ih hr
    | none =>
      rw [hr] at h
      by_cases hc : c = '.'
      · rw [if_pos hc] at h
        injection h with h2
        subst h2
        simp [hc]
      · rw [if_neg hc] at h
        cases h

theorem wavConvertedPath_ne (p : String) : wavConvertedPath p ≠ p := by
  intro h
  unfold wavConvertedPath at h
  cases hd : lastDotPos p.data with
  | none =>
    have hrs : rsplitDotHead p = p := by
      unfold rsplitDotHead
      rw [hd]
    rw [hrs] at h
    have hl := congrArg String.length h
    rw [String.length_append] at hl
    have h14 : ("_converted.wav" : String).length = 14 := rfl
    omega
  | some k =>
    have hrs : rsplitDotHead p = String.mk (p.data.take k) := by
      unfold rsplitDotHead
      rw [hd]
    rw [hrs] at h
    have hdata := congrArg String.data h
    rw [String.data_append] at hdata
    have hk := lastDotPos_lt hd
    have hget := lastDotPos_get hd
    have hlen : (p.data.take k).length = k := by
      rw [List.length_take]
      omega
    have h3 : p.data[k]? = some '_' := by
      rw [← hdata, List.getElem?_append_right (by omega : (p.data.take k).length ≤ k), hlen]
      simp
    rw [hget] at h3
    simp at h3

theorem convertToWav_wav {path : String} (h : toLowerStr (fileExt path) = ".wav")
    (f : Except String Unit) : convertToWav f path = ⟨Except.ok path, [], []⟩ := by
  unfold convertToWav
  rw [if_pos h]

theorem convertToWav_ok {path : String} (h : ¬ toLowerStr (fileExt path) = ".wav") :
    convertToWav (Except.ok ()) path =
      ⟨Except.ok (wavConvertedPath path), [ffmpegCmd path], [wavConvertedPath path]⟩ := by
  unfold convertToWav
  rw [if_neg h]

theorem convertToWav_err {path stderr : String} (h : ¬ toLowerStr (fileExt path) = ".wav") :
    convertToWav (Except.error stderr) path =
      ⟨Except.error (PyExn.exn ("Failed to convert audio: " ++ stderr)), [ffmpegCmd path], []⟩ := by
  unfold convertToWav
  rw [if_neg h]

theorem transcribeAudio_wav {env : Env} {path lang : String}
    (h : toLowerStr (fileExt path) = ".wav") :
    transcribeAudio env path lang = afterConvert env path path lang false env.inputExists := by
  unfold transcribeAudio
  rw [convertToWav_wav h]

theorem transcribeAudio_conv {env : Env} {path lang : String}
    (h : ¬ toLowerStr (fileExt path) = ".wav") (hf : env.ffmpeg = Except.ok ()) :
    transcribeAudio env path lang =
      afterConvert env path (wavConvertedPath path) lang true true := by
  unfold transcribeAudio
  rw [hf, convertToWav_ok h]

theorem deleteFromGcs_fst (fails present : Bool) :
    (deleteFromGcs fails present).1 = Except.ok () := by
  unfold deleteFromGcs blobDeleteAttempt
  cases present <;> cases fails <;> rfl

theorem deleteFromGcs_true (fails : Bool) : (deleteFromGcs fails true).2 = 1 := by
  unfold deleteFromGcs blobDeleteAttempt
  cases fails <;> rfl

theorem deleteFromGcs_false (fails : Bool) : (deleteFromGcs fails false).2 = 0 := by
  unfold deleteFromGcs
  rfl

theorem long_removeOk (env : Env) (p : String) (ex : Bool) (hrm : env.removeRaises = false) :
    ((transcribeLongAudio env p ex).uploaded = true →
      (transcribeLongAudio env p ex).blobDeleteCalls = 1) ∧
    (∃ s, (transcribeLongAudio env p ex).result = Except.ok s) ∧
    (strEndsWith p "_converted.wav" = true → ex = true →
      (transcribeLongAudio env p ex).fileExists = false) := by
  unfold transcribeLongAudio longExit
  simp only [deleteFromGcs_true, deleteFromGcs_false]
  split <;> (try split) <;> (try split) <;> (try split) <;> (try split) <;> simp_all

theorem outerHandle_ok (env : Env) (e : PyExn) (path wavPath : String) (ex : Bool)
    (hrm : env.removeRaises = false) :
    (outerHandle env e path wavPath ex).1 =
      Except.ok ("Error during transcription: " ++ pyStr e) ∧
    (wavPath ≠ path → ex = true → (outerHandle env e path wavPath ex).2 = false) := by
  unfold outerHandle
  split_ifs <;> simp_all

theorem afterConvert_cleanup (env : Env) (path wavPath lang : String) (created ex : Bool)
    (hrm : env.removeRaises = false)
    (hwne : created = true → wavPath ≠ path)
    (hwend : created = true → strEndsWith wavPath "_converted.wav" = true)
    (hex : created = true → ex = true) :
    ((afterConvert env path wavPath lang created ex).uploaded = true →
      (afterConvert env path wavPath lang created ex).blobDeleteCalls = 1) ∧
    (created = true → (afterConvert env path wavPath lang created ex).wavExists = false) ∧
    (∃ s, (afterConvert env path wavPath lang created ex).result = Except.ok s) := by
  unfold afterConvert
  by_cases hd : (55:ℚ) < sttGetAudioDuration env.probe
  · rw [if_pos hd]
    obtain ⟨hup, ⟨s, hs⟩, hfe⟩ := long_removeOk env wavPath ex hrm
    rw [hs]
    refine ⟨fun h2 => by simpa using hup (by simpa using h2), fun hc => ?_, ⟨s, by simp⟩⟩
    simpa using hfe (hwend hc) (hex hc)
  · rw [if_neg hd]
    cases hrb : env.readBytes with
    | error msg =>
      obtain ⟨h1, h2⟩ := outerHandle_ok env (PyExn.exn msg) path wavPath ex hrm
      exact ⟨by simp, fun hc => by simpa using h2 (hwne hc) (hex hc), ⟨_, by simpa using h1⟩⟩
    | ok u =>
      cases hsr : env.syncRecognize with
      | error msg =>
        obtain ⟨h1, h2⟩ := outerHandle_ok env (PyExn.exn msg) path wavPath ex hrm
        exact ⟨by simp, fun hc => by simpa using h2 (hwne hc) (hex hc), ⟨_, by simpa using h1⟩⟩
      | ok results =>
        cases hta : topAlternatives results with
        | error e =>
          simp only [hta]
          obtain ⟨h1, h2⟩ := outerHandle_ok env e path wavPath ex hrm
          exact ⟨by simp, fun hc => by simpa using h2 (hwne hc) (hex hc), ⟨_, by simpa using h1⟩⟩
        | ok tops =>
          simp only [hta]
          split_ifs <;> simp_all

theorem afterConvert_created {env : Env} {path wavPath lang : String} {created ex : Bool} :
    (afterConvert env path wavPath lang created ex).convertedCreated = created := by
  unfold afterConvert
  repeat' split
  all_goals rfl

theorem afterConvert_route {env : Env} {path wavPath lang : String} {created ex : Bool} :
    (afterConvert env path wavPath lang created ex).usedLongPath = true ↔
      55 < sttGetAudioDuration env.probe := by
  unfold afterConvert
  by_cases hd : (55:ℚ) < sttGetAudioDuration env.probe
  · rw [if_pos hd]
    split <;> simp [hd]
  · rw [if_neg hd]
    cases hrb : env.readBytes with
    | error msg => simp [hd]
    | ok u =>
      cases hsr : env.syncRecognize with
      | error msg => simp [hd]
      | ok results =>
        cases hta : topAlternatives results with
        | error e =>
          simp only [hta]
          simp [hd]
        | ok tops =>
          simp only [hta]
          split_ifs <;> simp [hd]

theorem strTake_length_le (s : String) (n : Nat) : (strTake s n).length ≤ n := by
  have h1 : (strTake s n).length = (s.data.take n).length := rfl
  rw [h1, List.length_take]
  exact min_le_left _ _

theorem titleFromResp_length (resp : String) : (titleFromResp resp).length ≤ 50 := by
  unfold titleFromResp
  by_cases h : (removeChar squote (removeChar dquote (stripStr resp))).length > 50
  · rw [if_pos h]
    exact strTake_length_le _ _
  · rw [if_neg h]
    omega

theorem titleFromResp_noquotes (resp : String) :
    (titleFromResp resp).data.all (fun c => !(c == dquote) && !(c == squote)) = true := by
  rw [List.all_eq_true]
  intro c hc
  have hc1 : c ∈ (if (removeChar squote (removeChar dquote (stripStr resp))).length > 50
      then strTake (removeChar squote (removeChar dquote (stripStr resp))) 50
      else removeChar squote (removeChar dquote (stripStr resp))).data := hc
  have hc2 : c ∈ (removeChar squote (removeChar dquote (stripStr resp))).data := by
    split at hc1
    · exact List.mem_of_mem_take hc1
    · exact hc1
  have hsq : ¬ c = squote := by
    have := (List.mem_filter.mp hc2).2
    simpa using this
  have hin : c ∈ (removeChar dquote (stripStr resp)).data := (List.mem_filter.mp hc2).1
  have hdq : ¬ c = dquote := by
    have := (List.mem_filter.mp hin).2
    simpa using this
  simp [hsq, hdq]

theorem saveNote_replace (pre post : List Note) (m note : Note)
    (hpre : ∀ x ∈ pre, ¬ x.id = note.id) (hm : m.id = note.id) :
    saveNote (pre ++ m :: post) note = pre ++ note :: post := by
  induction pre with
  | nil =>
    simp only [List.nil_append]
    unfold saveNote
    rw [if_pos hm]
  | cons a rest ih =>
    have ha : ¬ a.id = note.id := hpre a (by simp)
    simp only [List.cons_append]
    unfold saveNote
    rw [if_neg ha, ih (fun x hx => hpre x (by simp [hx]))]

/-! ## Claim theorems -/

/-- Claim C1 (code bug): `transcribe_audio` does not always return a string.
When the input is not a `.wav` and the ffmpeg conversion subprocess fails, the
top-level `except` handler evaluates `wav_path != audio_path` before
`wav_path` was ever assigned, so an `UnboundLocalError` escapes to the caller
instead of the promised `"Error during transcription: ..."` string. -/
theorem transcribe_audio_raises_on_conversion_failure :
    (transcribeAudio c1Env "a.mp3" "auto").result =
      Except.error (PyExn.unboundLocal "wav_path") := by
  decide

/-- Claim C2: the transport selector routes `d ≤ 55` (boundary `55` and the
fail-open `0` included) to the synchronous inline path and exactly `d > 55` to
the staged long-running path, and `transcribe_audio` takes the long path iff
the probed duration exceeds 55. -/
theorem transport_selector_threshold (d : ℚ) (env : Env) (path lang : String)
    (h : toLowerStr (fileExt path) = ".wav" ∨ env.ffmpeg = Except.ok ()) :
    (selectTransport d = Transport.inline ↔ d ≤ 55) ∧
    (selectTransport d = Transport.staged ↔ 55 < d) ∧
    selectTransport 55 = Transport.inline ∧
    selectTransport 0 = Transport.inline ∧
    ((transcribeAudio env path lang).usedLongPath = true ↔
      55 < sttGetAudioDuration env.probe) := by
  refine ⟨?_, ?_, by decide, by decide, ?_⟩
  · by_cases hd : 55 < d
    · simp [selectTransport, hd, not_le.mpr hd]
    · simp [selectTransport, hd, not_lt.mp hd]
  · by_cases hd : 55 < d
    · simp [selectTransport, hd]
    · simp [selectTransport, hd]
  · rcases h with hw | hf
    · rw [transcribeAudio_wav hw]
      exact afterConvert_route
    · by_cases hw2 : toLowerStr (fileExt path) = ".wav"
      · rw [transcribeAudio_wav hw2]
        exact afterConvert_route
      · rw [transcribeAudio_conv hw2 hf]
        exact afterConvert_route

/-- Claim C2 witness: the threshold theorem instantiated at `d = 60` and a
healthy 90-second environment on a wav input. -/
theorem transport_selector_threshold_witness :
    (toLowerStr (fileExt "x.wav") = ".wav" ∨ okEnv.ffmpeg = Except.ok ()) ∧
    ((selectTransport 60 = Transport.inline ↔ (60:ℚ) ≤ 55) ∧
      (selectTransport 60 = Transport.staged ↔ (55:ℚ) < 60) ∧
      selectTransport 55 = Transport.inline ∧
      selectTransport 0 = Transport.inline ∧
      ((transcribeAudio okEnv "x.wav" "auto").usedLongPath = true ↔
        55 < sttGetAudioDuration okEnv.probe)) :=
  ⟨Or.inl (by decide), transport_selector_threshold 60 okEnv "x.wav" "auto" (Or.inl (by decide))⟩

/-- Claim C3 counterexample: with a 90-second converted input where upload and
recognition succeed but removing the local converted temp file raises, the
`except` block of `_transcribe_long_audio` runs after the success path already
called `_delete_from_gcs`, so `blob.delete()` is invoked twice for the single
staged object of this invocation — not exactly once. -/
theorem staged_delete_double_invocation :
    (transcribeAudio c3Env "a.mp3" "auto").uploaded = true ∧
    (transcribeAudio c3Env "a.mp3" "auto").blobDeleteCalls = 2 ∧
    ¬ (transcribeAudio c3Env "a.mp3" "auto").blobDeleteCalls = 1 := by
  decide

/-- Claim C3 (amended): whenever removing the converted temp file does not
raise, every exit path of a `transcribe_audio` invocation that staged a remote
object deletes it exactly once, deletion failures are swallowed
(`_delete_from_gcs` never raises), the converted temp file is removed whenever
one was created (it then differs from the input path), and the invocation
returns a string. -/
theorem staged_cleanup_amended (env : Env) (path lang : String)
    (hrm : env.removeRaises = false)
    (hfm : ¬ toLowerStr (fileExt path) = ".wav" → env.ffmpeg = Except.ok ()) :
    ((transcribeAudio env path lang).uploaded = true →
      (transcribeAudio env path lang).blobDeleteCalls = 1) ∧
    ((transcribeAudio env path lang).convertedCreated = true →
      (transcribeAudio env path lang).wavExists = false) ∧
    (∃ s, (transcribeAudio env path lang).result = Except.ok s) ∧
    (∀ fails present, (deleteFromGcs fails present).1 = Except.ok ()) := by
  by_cases hw : toLowerStr (fileExt path) = ".wav"
  · rw [transcribeAudio_wav hw]
    have hmain := afterConvert_cleanup env path path lang false env.inputExists hrm
      (by simp) (by simp) (by simp)
    refine ⟨hmain.1, ?_, hmain.2.2, deleteFromGcs_fst⟩
    rw [afterConvert_created]
    exact hmain.2.1
  · rw [transcribeAudio_conv hw (hfm hw)]
    have hmain := afterConvert_cleanup env path (wavConvertedPath path) lang true true hrm
      (fun _ => wavConvertedPath_ne path) (fun _ => wavConvertedPath_endsConv path)
      (fun _ => rfl)
    refine ⟨hmain.1, ?_, hmain.2.2, deleteFromGcs_fst⟩
    rw [afterConvert_created]
    exact hmain.2.1

/-- Claim C3 witness: the amended cleanup theorem at a healthy 90-second
environment on an mp3 input (conversion, staging, recognition all succeed). -/
theorem staged_cleanup_amended_witness :
    (okEnv.removeRaises = false ∧
      (¬ toLowerStr (fileExt "a.mp3") = ".wav" → okEnv.ffmpeg = Except.ok ())) ∧
    (((transcribeAudio okEnv "a.mp3" "auto").uploaded = true →
        (transcribeAudio okEnv "a.mp3" "auto").blobDeleteCalls = 1) ∧
      ((transcribeAudio okEnv "a.mp3" "auto").convertedCreated = true →
        (transcribeAudio okEnv "a.mp3" "auto").wavExists = false) ∧
      (∃ s, (transcribeAudio okEnv "a.mp3" "auto").result = Except.ok s) ∧
      (∀ fails present, (deleteFromGcs fails present).1 = Except.ok ())) :=
  ⟨⟨rfl, fun _ => rfl⟩, staged_cleanup_amended okEnv "a.mp3" "auto" rfl (fun _ => rfl)⟩

/-- Claim C4 counterexample: a nonempty response consisting of one segment
whose top alternative is the empty transcript. The claimed assembly (space
concatenation of top alternatives) yields `""`, but the code returns the
no-speech sentinel even though the result set is nonempty. -/
theorem assembly_sentinel_on_nonempty_result :
    assembleTranscription [RecResult.mk [""]] = Except.ok noSpeechSentinel ∧
    String.intercalate " " [""] = "" ∧
    ¬ [RecResult.mk [""]] = ([] : List RecResult) ∧
    ¬ assembleTranscription [RecResult.mk [""]] =
        Except.ok (String.intercalate " " [""]) := by
  decide

/-- Claim C4 (amended): the transcript is the single-space concatenation of
each segment's top alternative, except that the no-speech sentinel is returned
exactly when that concatenation is empty — in particular for the empty result
set — and the empty string is never returned. -/
theorem assembly_amended (results : List RecResult) (tops : List String)
    (h : topAlternatives results = Except.ok tops) :
    assembleTranscription results =
      Except.ok (if String.intercalate " " tops = "" then noSpeechSentinel
        else String.intercalate " " tops) ∧
    ¬ assembleTranscription results = Except.ok "" ∧
    assembleTranscription ([] : List RecResult) = Except.ok noSpeechSentinel := by
  have h1 : assembleTranscription results = Except.ok (joinOrSentinel tops) := by
    unfold assembleTranscription
    rw [h]
  refine ⟨by rw [h1]; rfl, ?_, by decide⟩
  rw [h1]
  intro hcon
  injection hcon with h2
  have h2b : (if String.intercalate " " tops = "" then noSpeechSentinel
      else String.intercalate " " tops) = "" := h2
  split_ifs at h2b with hts
  · exact absurd h2b (by decide)
  · exact hts h2b

/-- Claim C4 witness: the amended assembly theorem at the two-segment response
of the spec's scenario A. -/
theorem assembly_amended_witness :
    topAlternatives [RecResult.mk ["Hello world"], RecResult.mk ["this is a test"]] =
      Except.ok ["Hello world", "this is a test"] ∧
    (assembleTranscription [RecResult.mk ["Hello world"], RecResult.mk ["this is a test"]] =
        Except.ok (if String.intercalate " " ["Hello world", "this is a test"] = ""
          then noSpeechSentinel else String.intercalate " " ["Hello world", "this is a test"]) ∧
      ¬ assembleTranscription [RecResult.mk ["Hello world"], RecResult.mk ["this is a test"]] =
          Except.ok "" ∧
      assembleTranscription ([] : List RecResult) = Except.ok noSpeechSentinel) :=
  ⟨by decide, assembly_amended _ _ (by decide)⟩

/-- Claim C5: `summarize` short-circuits to "No summary available." with zero
backend calls on empty input, any input starting with "Error", and the
no-speech sentinel; on any other input whose backend call fails it returns a
string prefixed "Error generating summary: ". -/
theorem summarize_policy (backend : Except String String) (t u msg : String)
    (h1 : ¬ t = "") (h2 : pyStartsWith t "Error" = false) (h3 : ¬ t = noSpeechSentinel) :
    summarize backend "" = ("No summary available.", 0) ∧
    summarize backend ("Error" ++ u) = ("No summary available.", 0) ∧
    summarize backend noSpeechSentinel = ("No summary available.", 0) ∧
    summarize (Except.error msg) t = ("Error generating summary: " ++ msg, 1) := by
  refine ⟨?_, ?_, ?_, ?_⟩
  · unfold summarize
    rw [if_pos (Or.inl rfl)]
  · unfold summarize
    rw [if_pos (Or.inr (Or.inl (pyStartsWith_append "Error" u)))]
  · unfold summarize
    rw [if_pos (Or.inr (Or.inr rfl))]
  · have hcond : ¬ (t = "" ∨ pyStartsWith t "Error" = true ∨ t = noSpeechSentinel) := by
      intro hcon
      rcases hcon with hc | hc | hc
      · exact h1 hc
      · rw [h2] at hc
        cases hc
      · exact h3 hc
    unfold summarize
    rw [if_neg hcond]

/-- Claim C5 witness: the policy theorem at a live backend, the error-sentinel
input of the spec's scenario C, and a failing backend on normal input. -/
theorem summarize_policy_witness :
    (¬ "hello world" = "" ∧ pyStartsWith "hello world" "Error" = false ∧
      ¬ "hello world" = noSpeechSentinel) ∧
    (summarize (Except.ok "S") "" = ("No summary available.", 0) ∧
      summarize (Except.ok "S") ("Error" ++ " during transcription: x") =
        ("No summary available.", 0) ∧
      summarize (Except.ok "S") noSpeechSentinel = ("No summary available.", 0) ∧
      summarize (Except.error "boom") "hello world" =
        ("Error generating summary: " ++ "boom", 1)) :=
  ⟨⟨by decide, by decide, by decide⟩,
    summarize_policy (Except.ok "S") "hello world" " during transcription: x" "boom"
      (by decide) (by decide) (by decide)⟩

/-- Claim C6: `generate_title` always returns at most 50 characters with no
double-quote and no single-quote character, and returns the fixed default
title on empty input, inputs starting with "Error", and backend failure. -/
theorem generate_title_policy (backend : Except String String) (t u msg : String) :
    (generateTitle backend t).length ≤ 50 ∧
    (generateTitle backend t).data.all (fun c => !(c == dquote) && !(c == squote)) = true ∧
    generateTitle backend "" = "Untitled Note" ∧
    generateTitle backend ("Error" ++ u) = "Untitled Note" ∧
    generateTitle (Except.error msg) t = "Untitled Note" := by
  have huq : ("Untitled Note" : String).data.all
      (fun c => !(c == dquote) && !(c == squote)) = true := by decide
  have hcases : generateTitle backend t = "Untitled Note" ∨
      ∃ resp, generateTitle backend t = titleFromResp resp := by
    unfold generateTitle
    split_ifs
    · exact Or.inl rfl
    · cases backend with
      | ok resp => exact Or.inr ⟨resp, rfl⟩
      | error m => exact Or.inl rfl
  refine ⟨?_, ?_, ?_, ?_, ?_⟩
  · rcases hcases with hc | ⟨resp, hc⟩
    · rw [hc]
      decide
    · rw [hc]
      exact titleFromResp_length resp
  · rcases hcases with hc | ⟨resp, hc⟩
    · rw [hc]
      exact huq
    · rw [hc]
      exact titleFromResp_noquotes resp
  · unfold generateTitle
    rw [if_pos (Or.inl rfl)]
  · unfold generateTitle
    rw [if_pos (Or.inr (pyStartsWith_append "Error" u))]
  · unfold generateTitle
    split_ifs
    · rfl
    · rfl

/-- Claim C7 counterexample: the ffmpeg invocation built by `_convert_to_wav`
for a non-wav input contains no `-vn` (suppress video stream) argument — the
command requests mono and 16000 Hz but never requests "no video stream"
(unlike the playback converter in `audio_player.py`, which does pass `-vn`). -/
theorem converter_no_vn_flag :
    ¬ "-vn" ∈ ffmpegCmd "a.mp3" ∧
    (convertToWav (Except.ok ()) "a.mp3").cmds = [ffmpegCmd "a.mp3"] := by
  decide

/-- Claim C7 (amended): wav inputs are returned unchanged with no subprocess
and no file created; other inputs are transcoded with mono (`-ac 1`) and
16000 Hz (`-ar 16000`) — but with no video-suppression flag — to the
same-stem `_converted.wav` path, and a non-zero exit raises an error carrying
the subprocess stderr. -/
theorem converter_amended (path path2 stderr : String)
    (hw : ¬ toLowerStr (fileExt path) = ".wav")
    (hw2 : toLowerStr (fileExt path2) = ".wav") :
    convertToWav (Except.ok ()) path =
      ⟨Except.ok (wavConvertedPath path), [ffmpegCmd path], [wavConvertedPath path]⟩ ∧
    convertToWav (Except.error stderr) path =
      ⟨Except.error (PyExn.exn ("Failed to convert audio: " ++ stderr)), [ffmpegCmd path], []⟩ ∧
    (∃ s t, ffmpegCmd path = s ++ ["-ar", "16000"] ++ t) ∧
    (∃ s t, ffmpegCmd path = s ++ ["-ac", "1"] ++ t) ∧
    wavConvertedPath path = rsplitDotHead path ++ "_converted.wav" ∧
    convertToWav (Except.ok ()) path2 = ⟨Except.ok path2, [], []⟩ ∧
    convertToWav (Except.error stderr) path2 = ⟨Except.ok path2, [], []⟩ :=
  ⟨convertToWav_ok hw, convertToWav_err hw,
    ⟨["ffmpeg", "-i", path], ["-ac", "1", "-y", wavConvertedPath path], rfl⟩,
    ⟨["ffmpeg", "-i", path, "-ar", "16000"], ["-y", wavConvertedPath path], rfl⟩,
    rfl, convertToWav_wav hw2 _, convertToWav_wav hw2 _⟩

/-- Claim C7 witness: the amended converter theorem at an mp3 input and a wav
input with a failing transcoder outcome. -/
theorem converter_amended_witness :
    (¬ toLowerStr (fileExt "a.mp3") = ".wav" ∧ toLowerStr (fileExt "b.wav") = ".wav") ∧
    (convertToWav (Except.ok ()) "a.mp3" =
        ⟨Except.ok (wavConvertedPath "a.mp3"), [ffmpegCmd "a.mp3"], [wavConvertedPath "a.mp3"]⟩ ∧
      convertToWav (Except.error "boom") "a.mp3" =
        ⟨Except.error (PyExn.exn ("Failed to convert audio: " ++ "boom")),
          [ffmpegCmd "a.mp3"], []⟩ ∧
      (∃ s t, ffmpegCmd "a.mp3" = s ++ ["-ar", "16000"] ++ t) ∧
      (∃ s t, ffmpegCmd "a.mp3" = s ++ ["-ac", "1"] ++ t) ∧
      wavConvertedPath "a.mp3" = rsplitDotHead "a.mp3" ++ "_converted.wav" ∧
      convertToWav (Except.ok ()) "b.wav" = ⟨Except.ok "b.wav", [], []⟩ ∧
      convertToWav (Except.error "boom") "b.wav" = ⟨Except.ok "b.wav", [], []⟩) :=
  ⟨⟨by decide, by decide⟩, converter_amended "a.mp3" "b.wav" "boom" (by decide) (by decide)⟩

/-- Claim C8 counterexample: in an environment where embedded metadata carries
a 7-second duration but the external probe fails, the metadata-first prober
the claim describes returns 7, while the prober actually feeding the routing
decision (`_get_audio_duration`) returns 0 — it has no metadata-first step —
and the pipeline consequently routes to the synchronous path. -/
theorem routing_prober_not_metadata_first :
    routingProberPerClaim (some 7) none = 7 ∧
    sttGetAudioDuration none = 0 ∧
    ¬ sttGetAudioDuration none = routingProberPerClaim (some 7) none ∧
    audioPlayerGetDuration (Except.ok (some 7)) none = 7 ∧
    (transcribeAudio probeFailEnv "x.wav" "auto").usedLongPath = false := by
  decide

/-- Claim C8 (amended): the prober used for routing
(`SpeechToTextService._get_audio_duration`) has only the external-probe
strategy and returns 0.0 on any failure instead of raising; the
metadata-first prober with external fallback and 0.0-on-total-failure is
`AudioPlayer.get_duration`, which serves playback display, not routing. -/
theorem duration_probers_amended (q : ℚ) (f : Option ℚ) :
    sttGetAudioDuration (some q) = q ∧
    sttGetAudioDuration none = 0 ∧
    audioPlayerGetDuration (Except.ok (some q)) f = q ∧
    audioPlayerGetDuration (Except.ok none) (some q) = q ∧
    audioPlayerGetDuration (Except.ok none) none = 0 ∧
    audioPlayerGetDuration (Except.error ()) f = 0 :=
  ⟨rfl, rfl, rfl, rfl, rfl, rfl⟩

/-- Claim C9 counterexample: `save_note` with a matching id replaces the
stored record wholesale, so an update carrying a different `created_at`
overwrites the original `created_at` — the storage layer does not preserve
it. -/
theorem save_note_overwrites_created_at :
    n1.id = n0.id ∧
    ¬ n1.created_at = n0.created_at ∧
    saveNote [n0] n1 = [n1] ∧
    ¬ (saveNote [n0] n1).map (fun m => m.created_at) =
        [n0].map (fun m => m.created_at) := by
  decide

/-- Claim C9 (amended): `save_note` with a matching id replaces exactly the
matched record wholesale — the stored id set is preserved (the match key
equals the incoming id), while `created_at` is preserved precisely when the
incoming note carries the original `created_at`; its immutability is caller
discipline, not enforced by the storage layer. -/
theorem save_note_amended (pre post : List Note) (m note : Note)
    (hpre : ∀ x ∈ pre, ¬ x.id = note.id) (hm : m.id = note.id) :
    saveNote (pre ++ m :: post) note = pre ++ note :: post ∧
    (pre ++ note :: post).map (fun x => x.id) = (pre ++ m :: post).map (fun x => x.id) ∧
    ((pre ++ note :: post).map (fun x => x.created_at) =
        (pre ++ m :: post).map (fun x => x.created_at) ↔
      note.created_at = m.created_at) := by
  refine ⟨saveNote_replace pre post m note hpre hm, by simp [hm], ?_⟩
  simp only [List.map_append, List.map_cons]
  simp

/-- Claim C9 witness: the amended replacement theorem at a one-note store. -/
theorem save_note_amended_witness :
    ((∀ x ∈ ([] : List Note), ¬ x.id = n1.id) ∧ n0.id = n1.id) ∧
    (saveNote (([] : List Note) ++ n0 :: []) n1 = ([] : List Note) ++ n1 :: [] ∧
      (([] : List Note) ++ n1 :: []).map (fun x => x.id) =
        (([] : List Note) ++ n0 :: []).map (fun x => x.id) ∧
      ((([] : List Note) ++ n1 :: []).map (fun x => x.created_at) =
          (([] : List Note) ++ n0 :: []).map (fun x => x.created_at) ↔
        n1.created_at = n0.created_at)) :=
  ⟨⟨by simp, by decide⟩, save_note_amended [] [] n0 n1 (by simp) (by decide)⟩

/-- Claim C10: the deprecated `transcribe_audio_long` entry point delegates to
`transcribe_audio`, so on identical arguments the two are observationally
identical. -/
theorem transcribe_audio_long_delegates (env : Env) (path lang : String) :
    transcribeAudioLong env path lang = transcribeAudio env path lang := rfl

end AudioNotes
